import Mathlib

/-!
Verification of the `gomusicbrainz` MusicBrainz WS2 client library
(`gomusicbrainz.go`) against its specification.

The Go code is shallowly embedded as follows:
* `url.Values` is a list of key/multi-value pairs; `Values.encode` models
  `url.Values.Encode`, which percent-escapes keys and values with
  `url.QueryEscape` and emits the pairs sorted bytewise by key.
* `url.URL` appears only as the string its `String()` method renders.
* Go `int` is `Int`; `strconv.Itoa` is `Int.repr` (decimal notation).
* The network is a `World` function from the issued request to a transport
  outcome (a transport-level error or a response body).  `log.Fatalln`,
  which terminates the process, is the `fatal` constructor of the result.
* `xml.Decoder.Decode` into a given envelope type is an abstract parameter
  `decode : String → Except GoError α` of each operation; a decode failure
  is its `.error` case.
* The pointer receiver `c *WS2Client` is passed by explicit state passing:
  each method returns the client value alongside its Go results, and
  `(*T, error)` returns become a pair of options inside `SearchReturn`.
-/

/-- Go `error` values, modelled by their message string. -/
abbrev GoError := String

/-- Outcome of `client.Do(req)`: either a transport-level error
(connection refused, DNS failure, ...) or a response body. -/
inductive TransportOutcome where
  | transportError
  | body (s : String)
deriving DecidableEq

/-- The observable content of the `http.Request` built by `getReqeust`:
the full URL string and the `User-Agent` header value. -/
structure Request where
  url : String
  userAgent : String
deriving DecidableEq

/-- The network environment: what `client.Do` yields for each request. -/
abbrev World := Request → TransportOutcome

/-- `url.Values`: keys with their ordered value lists. -/
abbrev Values := List (String × List String)

/-- Hexadecimal digit characters as used by Go's `url` escaping ("0123456789ABCDEF"). -/
def upperhex (n : Nat) : String :=
  if n < 10 then String.singleton (Char.ofNat (48 + n))
  else String.singleton (Char.ofNat (65 + (n - 10)))

/-- Percent-escape one byte: `%XX` with uppercase hex, as Go's `url` package does. -/
def percentEscape (b : Nat) : String :=
  "%" ++ upperhex (b / 16) ++ upperhex (b % 16)

/-- Go `url.shouldEscape` for query components: alphanumerics and
`-`, `_`, `.`, `~` stay, everything else is escaped (space specially). -/
def shouldEscapeQueryByte (b : Nat) : Bool :=
  !((65 ≤ b && b ≤ 90) || (97 ≤ b && b ≤ 122) || (48 ≤ b && b ≤ 57) ||
    b = 45 || b = 95 || b = 46 || b = 126)

/-- Escape one byte of a query component: space becomes `+`, unreserved
bytes stay (they are ASCII, so the byte is the character), the rest are
percent-escaped. -/
def queryEscapeByte (b : Nat) : String :=
  if b = 32 then "+"
  else if shouldEscapeQueryByte b then percentEscape b
  else String.singleton (Char.ofNat b)

/-- UTF-8 encoding of one code point, as a list of byte values. -/
def utf8Bytes (c : Nat) : List Nat :=
  if c < 0x80 then [c]
  else if c < 0x800 then
    [0xC0 + c / 64, 0x80 + c % 64]
  else if c < 0x10000 then
    [0xE0 + c / 4096, 0x80 + c / 64 % 64, 0x80 + c % 64]
  else
    [0xF0 + c / 262144, 0x80 + c / 4096 % 64, 0x80 + c / 64 % 64, 0x80 + c % 64]

/-- The UTF-8 bytes of a string (a Go `string` is this byte sequence). -/
def strBytes (s : String) : List Nat :=
  s.data.flatMap (fun ch => utf8Bytes ch.toNat)

/-- Go `url.QueryEscape`, applied bytewise to the UTF-8 encoding. -/
def queryEscape (s : String) : String :=
  String.join ((strBytes s).map queryEscapeByte)

/-- Bytewise lexicographic order on byte lists, as Go's `sort.Strings` compares. -/
def bytesLe : List Nat → List Nat → Bool
  | [], _ => true
  | _ :: _, [] => false
  | a :: as, b :: bs => if a < b then true else if b < a then false else bytesLe as bs

/-- Bytewise string comparison (Go string `<=`). -/
def strLe (a b : String) : Bool :=
  bytesLe (strBytes a) (strBytes b)

/-- Insert a key/values pair into a key-sorted list. -/
def insertByKey (p : String × List String) : Values → Values
  | [] => [p]
  | q :: qs => if strLe p.1 q.1 then p :: q :: qs else q :: insertByKey p qs

/-- Sort the pairs of a `Values` by key, as `url.Values.Encode` does
before emitting them. -/
def sortByKey : Values → Values
  | [] => []
  | p :: ps => insertByKey p (sortByKey ps)

/-- `url.Values.Encode`: keys sorted, each value emitted as
`QueryEscape(key)=QueryEscape(value)`, joined by `&`. -/
def Values.encode (vs : Values) : String :=
  String.intercalate "&"
    ((sortByKey vs).map
      (fun p => p.2.map (fun v => queryEscape p.1 ++ "=" ++ queryEscape v))).flatten

/-- `WS2Client`: the API root URL (as its rendered string) and the
stored `User-Agent` header. -/
structure WS2Client where
  WS2RootURL : String
  userAgentHeader : String
deriving DecidableEq

/-- `SetClientInfo` formats and stores the `User-Agent` header
(`gomusicbrainz.go:99-101`); explicit state passing for the pointer
receiver. -/
def SetClientInfo (c : WS2Client) (application version contact : String) : WS2Client :=
  { c with userAgentHeader := application ++ "/" ++ version ++ " ( " ++ contact ++ " ) " }

/-- `NewWS2Client` (`gomusicbrainz.go:40-53`): default root URL and
default client info. -/
def NewWS2Client : WS2Client :=
  SetClientInfo
    { WS2RootURL := "https://musicbrainz.org/ws/2", userAgentHeader := "" }
    "GoMusicBrainz - a Golang WS2 client"
    "0.0.1-beta"
    "michael@michiwend.com"

/-- The `http.Request` that `getReqeust` builds:
`c.WS2RootURL.String()+endpoint+"?"+params.Encode()` with the
`User-Agent` header set to `c.userAgentHeader`. -/
def mkRequest (c : WS2Client) (params : Values) (endpoint : String) : Request :=
  { url := c.WS2RootURL ++ endpoint ++ "?" ++ Values.encode params
    userAgent := c.userAgentHeader }

/-- Result of `getReqeust`: the process terminated (`log.Fatalln` on a
transport error), the decoded data, or a returned decode error. -/
inductive GetResult (α : Type) where
  | fatal
  | ok (a : α)
  | err (e : GoError)
deriving DecidableEq

/-- `getReqeust` (`gomusicbrainz.go:62-85`), sic: build the request,
perform it against the world, `log.Fatalln` on a transport error,
otherwise decode the body and return the decode error if any. -/
def getReqeust {α : Type} (decode : String → Except GoError α) (world : World)
    (c : WS2Client) (params : Values) (endpoint : String) : GetResult α :=
  match world (mkRequest c params endpoint) with
  | .transportError => .fatal
  | .body s =>
    match decode s with
    | .error e => .err e
    | .ok a => .ok a

/-- A Go `(*T, error)` return: either the process died inside the call,
or the call returned a (possibly nil) pointer and a (possibly nil) error. -/
inductive SearchReturn (α : Type) where
  | fatal
  | returns (resp : Option α) (err : Option GoError)
deriving DecidableEq

/-- Modelled from the spec: the entity kinds (Artist, Release,
ReleaseGroup, Tag) are opaque structures mirroring the external XML
schema; their declarations are in a repository file not present here.
Each is modelled by a single name field. -/
structure Artist where
  name : String
deriving DecidableEq

/-- Modelled from the spec: the artist result envelope, a wrapper
holding the decoded list of matching artists. -/
structure ArtistResponse where
  artists : List Artist
deriving DecidableEq

/-- Modelled from the spec: the artist result wrapper whose inner
response field `SearchArtist` reads as `result.Resonse`
(field name sic, `gomusicbrainz.go:125`). -/
structure artistResult where
  Resonse : ArtistResponse
deriving DecidableEq

/-- Modelled from the spec: opaque Release entity. -/
structure Release where
  title : String
deriving DecidableEq

/-- Modelled from the spec: the release result envelope. -/
structure ReleaseResponse where
  releases : List Release
deriving DecidableEq

/-- Modelled from the spec: the release result wrapper read as
`result.Response` (`gomusicbrainz.go:150`). -/
structure releaseResult where
  Response : ReleaseResponse
deriving DecidableEq

/-- Modelled from the spec: opaque ReleaseGroup entity. -/
structure ReleaseGroup where
  title : String
deriving DecidableEq

/-- Modelled from the spec: the release-group result envelope. -/
structure ReleaseGroupResponse where
  releaseGroups : List ReleaseGroup
deriving DecidableEq

/-- Modelled from the spec: the release-group result wrapper read as
`result.Response` (`gomusicbrainz.go:175`). -/
structure releaseGroupResult where
  Response : ReleaseGroupResponse
deriving DecidableEq

/-- Modelled from the spec: opaque Tag entity. -/
structure Tag where
  name : String
deriving DecidableEq

/-- Modelled from the spec: the tag result envelope. -/
structure TagResponse where
  tags : List Tag
deriving DecidableEq

/-- Modelled from the spec: the tag result wrapper read as
`result.Response` (`gomusicbrainz.go:199`). -/
structure tagResult where
  Response : TagResponse
deriving DecidableEq

/-- `intParamToString` (`gomusicbrainz.go:88-94`): empty string for -1,
otherwise `strconv.Itoa`, i.e. decimal notation. -/
def intParamToString (i : Int) : String :=
  if i = -1 then "" else i.repr

/-- The `url.Values` literal each of the four search operations builds
(`gomusicbrainz.go:115-119`, 140-144, 165-169, 189-193): the search term
under `query` and the two integers through `intParamToString`. -/
def searchParams (searchTerm : String) (limit offset : Int) : Values :=
  [("query", [searchTerm]),
   ("limit", [intParamToString limit]),
   ("offset", [intParamToString offset])]

/-- `SearchArtist` (`gomusicbrainz.go:111-126`): build params, call
`getReqeust` on `/artist`, return `(nil, err)` on a decode error and
`(&result.Resonse, nil)` on success; the client state is returned
unchanged alongside. -/
def SearchArtist (decode : String → Except GoError artistResult) (world : World)
    (c : WS2Client) (searchTerm : String) (limit offset : Int) :
    SearchReturn ArtistResponse × WS2Client :=
  match getReqeust decode world c (searchParams searchTerm limit offset) "/artist" with
  | .fatal => (.fatal, c)
  | .err e => (.returns none (some e), c)
  | .ok result => (.returns (some result.Resonse) none, c)

/-- `SearchRelease` (`gomusicbrainz.go:136-151`). -/
def SearchRelease (decode : String → Except GoError releaseResult) (world : World)
    (c : WS2Client) (searchTerm : String) (limit offset : Int) :
    SearchReturn ReleaseResponse × WS2Client :=
  match getReqeust decode world c (searchParams searchTerm limit offset) "/release" with
  | .fatal => (.fatal, c)
  | .err e => (.returns none (some e), c)
  | .ok result => (.returns (some result.Response) none, c)

/-- `SearchReleaseGroup` (`gomusicbrainz.go:161-176`). -/
def SearchReleaseGroup (decode : String → Except GoError releaseGroupResult)
    (world : World) (c : WS2Client) (searchTerm : String) (limit offset : Int) :
    SearchReturn ReleaseGroupResponse × WS2Client :=
  match getReqeust decode world c (searchParams searchTerm limit offset) "/release-group" with
  | .fatal => (.fatal, c)
  | .err e => (.returns none (some e), c)
  | .ok result => (.returns (some result.Response) none, c)

/-- `SearchTag` (`gomusicbrainz.go:185-200`). -/
def SearchTag (decode : String → Except GoError tagResult) (world : World)
    (c : WS2Client) (searchTerm : String) (limit offset : Int) :
    SearchReturn TagResponse × WS2Client :=
  match getReqeust decode world c (searchParams searchTerm limit offset) "/tag" with
  | .fatal => (.fatal, c)
  | .err e => (.returns none (some e), c)
  | .ok result => (.returns (some result.Response) none, c)

/-! ## Helper lemmas about `getReqeust` -/

/-- If the world reports a transport-level error for the built request,
`getReqeust` reaches `log.Fatalln` and the process dies. -/
theorem getReqeust_fatal {α : Type} {d : String → Except GoError α} {w : World}
    {c : WS2Client} {p : Values} {ep : String}
    (h : w (mkRequest c p ep) = TransportOutcome.transportError) :
    getReqeust d w c p ep = GetResult.fatal := by
  simp [getReqeust, h]

/-- If the world delivers a body that fails to decode, `getReqeust`
returns that decode error. -/
theorem getReqeust_err {α : Type} {d : String → Except GoError α} {w : World}
    {c : WS2Client} {p : Values} {ep : String} {b : String} {e : GoError}
    (h : w (mkRequest c p ep) = TransportOutcome.body b) (hd : d b = Except.error e) :
    getReqeust d w c p ep = GetResult.err e := by
  simp [getReqeust, h, hd]

/-- If the world delivers a body that decodes, `getReqeust` returns the
decoded data. -/
theorem getReqeust_ok {α : Type} {d : String → Except GoError α} {w : World}
    {c : WS2Client} {p : Values} {ep : String} {b : String} {a : α}
    (h : w (mkRequest c p ep) = TransportOutcome.body b) (hd : d b = Except.ok a) :
    getReqeust d w c p ep = GetResult.ok a := by
  simp [getReqeust, h, hd]

/-- Conversely, an error return of `getReqeust` can only come from a
delivered body that failed to decode. -/
theorem getReqeust_err_inv {α : Type} {d : String → Except GoError α} {w : World}
    {c : WS2Client} {p : Values} {ep : String} {e : GoError}
    (h : getReqeust d w c p ep = GetResult.err e) :
    ∃ b, w (mkRequest c p ep) = TransportOutcome.body b ∧ d b = Except.error e := by
  unfold getReqeust at h
  split at h
  next hw => exact absurd h (by simp)
  next s hw =>
    split at h
    next e2 hd =>
      injection h with he
      exact ⟨s, hw, by rw [hd, he]⟩
    next a hd => exact absurd h (by simp)

/-- `getReqeust` consults the world only at the request it builds. -/
theorem getReqeust_congr {α : Type} {d : String → Except GoError α} {w w' : World}
    {c : WS2Client} {p : Values} {ep : String}
    (h : w (mkRequest c p ep) = w' (mkRequest c p ep)) :
    getReqeust d w c p ep = getReqeust d w' c p ep := by
  unfold getReqeust
  rw [h]


/-! ## Claim theorems -/

/-- Claim C1: for every search operation (all four build their parameter
set as `searchParams`) and every sentinel input (limit = -1 or
offset = -1), the value produced for that parameter is the empty string,
which is not the literal string "-1". -/
theorem sentinel_maps_to_empty_value :
    ∀ (t : String) (l o : Int),
      searchParams t (-1) o
        = [("query", [t]), ("limit", [""]), ("offset", [intParamToString o])] ∧
      searchParams t l (-1)
        = [("query", [t]), ("limit", [intParamToString l]), ("offset", [""])] ∧
      ("" : String) ≠ "-1" := by
  intro t l o
  refine ⟨?_, ?_, by decide⟩ <;> simp [searchParams, intParamToString]

/-- Claim C2 counterexample: `SetClientInfo("App","1.0","a@b.com")` does
not store exactly "App/1.0 ( a@b.com )": the code appends a trailing
space after the closing parenthesis. -/
theorem SetClientInfo_not_exact_claimed_header :
    (SetClientInfo NewWS2Client "App" "1.0" "a@b.com").userAgentHeader
      ≠ "App/1.0 ( a@b.com )" := by decide

/-- Claim C2 (amended): `SetClientInfo(application, version, contact)`
stores the identifying header as "<application>/<version> ( <contact> ) "
with a single trailing space; in particular
`SetClientInfo("App","1.0","a@b.com")` yields exactly
"App/1.0 ( a@b.com ) ". -/
theorem SetClientInfo_formats_header :
    (∀ (c : WS2Client) (application version contact : String),
      (SetClientInfo c application version contact).userAgentHeader
        = application ++ "/" ++ version ++ " ( " ++ contact ++ " ) ") ∧
    (SetClientInfo NewWS2Client "App" "1.0" "a@b.com").userAgentHeader
      = "App/1.0 ( a@b.com ) " :=
  ⟨fun _ _ _ _ => rfl, by decide⟩

/-- Claim C5: for every limit in [1,100] and offset ≥ 0, the parameter
set each search operation builds carries the exact decimal string
representation of that limit and that offset. -/
theorem valid_limit_offset_forwarded_decimal :
    ∀ (t : String) (l o : Int), 1 ≤ l → l ≤ 100 → 0 ≤ o →
      searchParams t l o
        = [("query", [t]), ("limit", [l.repr]), ("offset", [o.repr])] := by
  intro t l o h1 h2 h3
  have hl : l ≠ -1 := by omega
  have ho : o ≠ -1 := by omega
  simp [searchParams, intParamToString, hl, ho]

/-- Witness for C5 at limit 7, offset 0. -/
theorem valid_limit_offset_forwarded_decimal_witness :
    (1 : Int) ≤ 7 ∧ (7 : Int) ≤ 100 ∧ (0 : Int) ≤ 0 ∧
    searchParams "Beatles" 7 0
      = [("query", ["Beatles"]), ("limit", [(7 : Int).repr]), ("offset", [(0 : Int).repr])] :=
  ⟨by decide, by decide, by decide,
    valid_limit_offset_forwarded_decimal "Beatles" 7 0 (by decide) (by decide) (by decide)⟩

/-- Claim C9: only the exact value -1 is the sentinel: every other
integer, including 0 and -2, is forwarded as its literal decimal string
with no local validation. -/
theorem only_minus_one_sentinel :
    (∀ i : Int, i ≠ -1 → intParamToString i = i.repr) ∧
    intParamToString (-2) = "-2" ∧
    intParamToString 0 = "0" ∧
    (∀ (t : String) (l o : Int), l ≠ -1 → o ≠ -1 →
      searchParams t l o
        = [("query", [t]), ("limit", [l.repr]), ("offset", [o.repr])]) := by
  refine ⟨?_, by decide, by decide, ?_⟩
  · intro i hi
    simp [intParamToString, hi]
  · intro t l o hl ho
    simp [searchParams, intParamToString, hl, ho]

/-- Witness for C9 at -2. -/
theorem only_minus_one_sentinel_witness :
    (-2 : Int) ≠ -1 ∧ intParamToString (-2) = (-2 : Int).repr :=
  ⟨by decide, only_minus_one_sentinel.1 (-2) (by decide)⟩

/-- Claim C3: for every search operation, a delivered body that fails to
decode yields a returned decode error together with a nil result pointer. -/
theorem search_decode_error_returns_nil_and_error :
    ∀ (world : World) (c : WS2Client) (t : String) (l o : Int) (b : String) (e : GoError),
      (∀ d : String → Except GoError artistResult,
        world (mkRequest c (searchParams t l o) "/artist") = TransportOutcome.body b →
        d b = Except.error e →
        (SearchArtist d world c t l o).1 = SearchReturn.returns none (some e)) ∧
      (∀ d : String → Except GoError releaseResult,
        world (mkRequest c (searchParams t l o) "/release") = TransportOutcome.body b →
        d b = Except.error e →
        (SearchRelease d world c t l o).1 = SearchReturn.returns none (some e)) ∧
      (∀ d : String → Except GoError releaseGroupResult,
        world (mkRequest c (searchParams t l o) "/release-group") = TransportOutcome.body b →
        d b = Except.error e →
        (SearchReleaseGroup d world c t l o).1 = SearchReturn.returns none (some e)) ∧
      (∀ d : String → Except GoError tagResult,
        world (mkRequest c (searchParams t l o) "/tag") = TransportOutcome.body b →
        d b = Except.error e →
        (SearchTag d world c t l o).1 = SearchReturn.returns none (some e)) := by
  intro world c t l o b e
  refine ⟨?_, ?_, ?_, ?_⟩ <;>
    exact fun d hw hd => by
      simp [SearchArtist, SearchRelease, SearchReleaseGroup, SearchTag, getReqeust_err hw hd]

/-- Witness for C3: a constant world delivering an unparsable body and a
decoder that rejects it. -/
theorem search_decode_error_witness :
    (SearchArtist (fun _ => Except.error "EOF") (fun _ => TransportOutcome.body "<bad")
        NewWS2Client "x" 1 0).1 = SearchReturn.returns none (some "EOF") ∧
    (SearchRelease (fun _ => Except.error "EOF") (fun _ => TransportOutcome.body "<bad")
        NewWS2Client "x" 1 0).1 = SearchReturn.returns none (some "EOF") ∧
    (SearchReleaseGroup (fun _ => Except.error "EOF") (fun _ => TransportOutcome.body "<bad")
        NewWS2Client "x" 1 0).1 = SearchReturn.returns none (some "EOF") ∧
    (SearchTag (fun _ => Except.error "EOF") (fun _ => TransportOutcome.body "<bad")
        NewWS2Client "x" 1 0).1 = SearchReturn.returns none (some "EOF") :=
  have h := search_decode_error_returns_nil_and_error
    (fun _ => TransportOutcome.body "<bad") NewWS2Client "x" 1 0 "<bad" "EOF"
  ⟨h.1 (fun _ => Except.error "EOF") rfl rfl,
   h.2.1 (fun _ => Except.error "EOF") rfl rfl,
   h.2.2.1 (fun _ => Except.error "EOF") rfl rfl,
   h.2.2.2 (fun _ => Except.error "EOF") rfl rfl⟩

/-- Claim C4: for every search operation a transport-level failure
terminates the process (it is never returned as an error value), and the
error-return path is reachable only through a decode failure on a
delivered body. -/
theorem transport_failure_fatal_error_only_decode :
    ∀ (world : World) (c : WS2Client) (t : String) (l o : Int),
      (∀ d : String → Except GoError artistResult,
        world (mkRequest c (searchParams t l o) "/artist") = TransportOutcome.transportError →
        (SearchArtist d world c t l o).1 = SearchReturn.fatal) ∧
      (∀ d : String → Except GoError releaseResult,
        world (mkRequest c (searchParams t l o) "/release") = TransportOutcome.transportError →
        (SearchRelease d world c t l o).1 = SearchReturn.fatal) ∧
      (∀ d : String → Except GoError releaseGroupResult,
        world (mkRequest c (searchParams t l o) "/release-group") = TransportOutcome.transportError →
        (SearchReleaseGroup d world c t l o).1 = SearchReturn.fatal) ∧
      (∀ d : String → Except GoError tagResult,
        world (mkRequest c (searchParams t l o) "/tag") = TransportOutcome.transportError →
        (SearchTag d world c t l o).1 = SearchReturn.fatal) ∧
      (∀ (d : String → Except GoError artistResult) (resp : Option ArtistResponse) (e : GoError),
        (SearchArtist d world c t l o).1 = SearchReturn.returns resp (some e) →
        ∃ b, world (mkRequest c (searchParams t l o) "/artist") = TransportOutcome.body b ∧
          d b = Except.error e) ∧
      (∀ (d : String → Except GoError releaseResult) (resp : Option ReleaseResponse) (e : GoError),
        (SearchRelease d world c t l o).1 = SearchReturn.returns resp (some e) →
        ∃ b, world (mkRequest c (searchParams t l o) "/release") = TransportOutcome.body b ∧
          d b = Except.error e) ∧
      (∀ (d : String → Except GoError releaseGroupResult) (resp : Option ReleaseGroupResponse) (e : GoError),
        (SearchReleaseGroup d world c t l o).1 = SearchReturn.returns resp (some e) →
        ∃ b, world (mkRequest c (searchParams t l o) "/release-group") = TransportOutcome.body b ∧
          d b = Except.error e) ∧
      (∀ (d : String → Except GoError tagResult) (resp : Option TagResponse) (e : GoError),
        (SearchTag d world c t l o).1 = SearchReturn.returns resp (some e) →
        ∃ b, world (mkRequest c (searchParams t l o) "/tag") = TransportOutcome.body b ∧
          d b = Except.error e) := by
  intro world c t l o
  refine ⟨?_, ?_, ?_, ?_, ?_, ?_, ?_, ?_⟩
  · exact fun d hw => by simp [SearchArtist, getReqeust_fatal hw]
  · exact fun d hw => by simp [SearchRelease, getReqeust_fatal hw]
  · exact fun d hw => by simp [SearchReleaseGroup, getReqeust_fatal hw]
  · exact fun d hw => by simp [SearchTag, getReqeust_fatal hw]
  · intro d resp e h
    cases hg : getReqeust d world c (searchParams t l o) "/artist" with
    | fatal => simp [SearchArtist, hg] at h
    | ok r => simp [SearchArtist, hg] at h
    | err e2 =>
      simp [SearchArtist, hg] at h
      obtain ⟨-, h2⟩ := h
      subst h2
      exact getReqeust_err_inv hg
  · intro d resp e h
    cases hg : getReqeust d world c (searchParams t l o) "/release" with
    | fatal => simp [SearchRelease, hg] at h
    | ok r => simp [SearchRelease, hg] at h
    | err e2 =>
      simp [SearchRelease, hg] at h
      obtain ⟨-, h2⟩ := h
      subst h2
      exact getReqeust_err_inv hg
  · intro d resp e h
    cases hg : getReqeust d world c (searchParams t l o) "/release-group" with
    | fatal => simp [SearchReleaseGroup, hg] at h
    | ok r => simp [SearchReleaseGroup, hg] at h
    | err e2 =>
      simp [SearchReleaseGroup, hg] at h
      obtain ⟨-, h2⟩ := h
      subst h2
      exact getReqeust_err_inv hg
  · intro d resp e h
    cases hg : getReqeust d world c (searchParams t l o) "/tag" with
    | fatal => simp [SearchTag, hg] at h
    | ok r => simp [SearchTag, hg] at h
    | err e2 =>
      simp [SearchTag, hg] at h
      obtain ⟨-, h2⟩ := h
      subst h2
      exact getReqeust_err_inv hg

/-- Witness for C4: under a world that always fails at the transport
level, `SearchArtist` is fatal; under a world that delivers a body the
decoder rejects, the returned error is traced back to that decode
failure. -/
theorem transport_failure_fatal_witness :
    (SearchArtist (fun _ => Except.error "nope") (fun _ => TransportOutcome.transportError)
        NewWS2Client "x" 1 0).1 = SearchReturn.fatal ∧
    (∃ b, (fun _ => TransportOutcome.body "<bad" : World)
            (mkRequest NewWS2Client (searchParams "x" 1 0) "/artist") = TransportOutcome.body b ∧
          (fun _ => Except.error "EOF" : String → Except GoError artistResult) b
            = Except.error "EOF") :=
  ⟨(transport_failure_fatal_error_only_decode
      (fun _ => TransportOutcome.transportError) NewWS2Client "x" 1 0).1
      (fun _ => Except.error "nope") rfl,
   (transport_failure_fatal_error_only_decode
      (fun _ => TransportOutcome.body "<bad") NewWS2Client "x" 1 0).2.2.2.2.1
      (fun _ => Except.error "EOF") none "EOF" rfl⟩

/-- Claim C10: whenever a search operation returns (rather than dying),
exactly one of the result pointer and the error is non-nil. -/
theorem search_exactly_one_of_result_error :
    ∀ (world : World) (c : WS2Client) (t : String) (l o : Int),
      (∀ (d : String → Except GoError artistResult) (resp : Option ArtistResponse)
          (err : Option GoError),
        (SearchArtist d world c t l o).1 = SearchReturn.returns resp err →
        (resp ≠ none ∧ err = none) ∨ (resp = none ∧ err ≠ none)) ∧
      (∀ (d : String → Except GoError releaseResult) (resp : Option ReleaseResponse)
          (err : Option GoError),
        (SearchRelease d world c t l o).1 = SearchReturn.returns resp err →
        (resp ≠ none ∧ err = none) ∨ (resp = none ∧ err ≠ none)) ∧
      (∀ (d : String → Except GoError releaseGroupResult) (resp : Option ReleaseGroupResponse)
          (err : Option GoError),
        (SearchReleaseGroup d world c t l o).1 = SearchReturn.returns resp err →
        (resp ≠ none ∧ err = none) ∨ (resp = none ∧ err ≠ none)) ∧
      (∀ (d : String → Except GoError tagResult) (resp : Option TagResponse)
          (err : Option GoError),
        (SearchTag d world c t l o).1 = SearchReturn.returns resp err →
        (resp ≠ none ∧ err = none) ∨ (resp = none ∧ err ≠ none)) := by
  intro world c t l o
  refine ⟨?_, ?_, ?_, ?_⟩
  · intro d resp err h
    cases hg : getReqeust d world c (searchParams t l o) "/artist" with
    | fatal => simp [SearchArtist, hg] at h
    | ok r =>
      have he : (SearchArtist d world c t l o).1
          = SearchReturn.returns (some r.Resonse) none := by simp [SearchArtist, hg]
      rw [he] at h
      injection h with h1 h2
      subst h1
      subst h2
      exact Or.inl ⟨Option.some_ne_none _, rfl⟩
    | err e2 =>
      have he : (SearchArtist d world c t l o).1
          = SearchReturn.returns none (some e2) := by simp [SearchArtist, hg]
      rw [he] at h
      injection h with h1 h2
      subst h1
      subst h2
      exact Or.inr ⟨rfl, Option.some_ne_none _⟩
  · intro d resp err h
    cases hg : getReqeust d world c (searchParams t l o) "/release" with
    | fatal => simp [SearchRelease, hg] at h
    | ok r =>
      have he : (SearchRelease d world c t l o).1
          = SearchReturn.returns (some r.Response) none := by simp [SearchRelease, hg]
      rw [he] at h
      injection h with h1 h2
      subst h1
      subst h2
      exact Or.inl ⟨Option.some_ne_none _, rfl⟩
    | err e2 =>
      have he : (SearchRelease d world c t l o).1
          = SearchReturn.returns none (some e2) := by simp [SearchRelease, hg]
      rw [he] at h
      injection h with h1 h2
      subst h1
      subst h2
      exact Or.inr ⟨rfl, Option.some_ne_none _⟩
  · intro d resp err h
    cases hg : getReqeust d world c (searchParams t l o) "/release-group" with
    | fatal => simp [SearchReleaseGroup, hg] at h
    | ok r =>
      have he : (SearchReleaseGroup d world c t l o).1
          = SearchReturn.returns (some r.Response) none := by simp [SearchReleaseGroup, hg]
      rw [he] at h
      injection h with h1 h2
      subst h1
      subst h2
      exact Or.inl ⟨Option.some_ne_none _, rfl⟩
    | err e2 =>
      have he : (SearchReleaseGroup d world c t l o).1
          = SearchReturn.returns none (some e2) := by simp [SearchReleaseGroup, hg]
      rw [he] at h
      injection h with h1 h2
      subst h1
      subst h2
      exact Or.inr ⟨rfl, Option.some_ne_none _⟩
  · intro d resp err h
    cases hg : getReqeust d world c (searchParams t l o) "/tag" with
    | fatal => simp [SearchTag, hg] at h
    | ok r =>
      have he : (SearchTag d world c t l o).1
          = SearchReturn.returns (some r.Response) none := by simp [SearchTag, hg]
      rw [he] at h
      injection h with h1 h2
      subst h1
      subst h2
      exact Or.inl ⟨Option.some_ne_none _, rfl⟩
    | err e2 =>
      have he : (SearchTag d world c t l o).1
          = SearchReturn.returns none (some e2) := by simp [SearchTag, hg]
      rw [he] at h
      injection h with h1 h2
      subst h1
      subst h2
      exact Or.inr ⟨rfl, Option.some_ne_none _⟩

/-- Witness for C10 on a successful decode: non-nil result, nil error. -/
theorem search_exactly_one_witness :
    (SearchArtist (fun _ => Except.ok (artistResult.mk (ArtistResponse.mk [])))
        (fun _ => TransportOutcome.body "z") NewWS2Client "x" 1 0).1
      = SearchReturn.returns (some (ArtistResponse.mk [])) none ∧
    ((some (ArtistResponse.mk []) ≠ none ∧ (none : Option GoError) = none) ∨
      (some (ArtistResponse.mk []) = none ∧ (none : Option GoError) ≠ none)) :=
  ⟨rfl,
   (search_exactly_one_of_result_error
      (fun _ => TransportOutcome.body "z") NewWS2Client "x" 1 0).1
      (fun _ => Except.ok (artistResult.mk (ArtistResponse.mk [])))
      (some (ArtistResponse.mk [])) none rfl⟩

/-- Claim C6 counterexample: the URL built for
`SearchArtist("Beatles", -1, -1)` on the default client does not end in
"?query=Beatles&limit=&offset=": `url.Values.Encode` emits the
parameters sorted by key, so the actual query string is
"?limit=&offset=&query=Beatles". -/
theorem beatles_query_order_counterexample :
    (mkRequest NewWS2Client (searchParams "Beatles" (-1) (-1)) "/artist").url
        = "https://musicbrainz.org/ws/2/artist?limit=&offset=&query=Beatles" ∧
    (mkRequest NewWS2Client (searchParams "Beatles" (-1) (-1)) "/artist").url
        ≠ "https://musicbrainz.org/ws/2/artist?query=Beatles&limit=&offset=" := by
  exact ⟨by decide, by decide⟩

/-- Claim C6 (amended): `SearchArtist("Beatles", -1, -1)` on a
default-constructed client issues its GET at
"https://musicbrainz.org/ws/2/artist?limit=&offset=&query=Beatles"
(the parameters in the sorted order `url.Values.Encode` produces, with
both sentinel parameters sent empty), and when the delivered body
decodes to a two-artist envelope the returned list has exactly those two
entries in the order given by the fixture. -/
theorem beatles_scenario :
    ∀ (world : World) (d : String → Except GoError artistResult) (b : String) (a1 a2 : Artist),
      world (mkRequest NewWS2Client (searchParams "Beatles" (-1) (-1)) "/artist")
        = TransportOutcome.body b →
      d b = Except.ok (artistResult.mk (ArtistResponse.mk [a1, a2])) →
      (mkRequest NewWS2Client (searchParams "Beatles" (-1) (-1)) "/artist").url
          = "https://musicbrainz.org/ws/2/artist?limit=&offset=&query=Beatles" ∧
      (SearchArtist d world NewWS2Client "Beatles" (-1) (-1)).1
          = SearchReturn.returns (some (ArtistResponse.mk [a1, a2])) none := by
  intro world d b a1 a2 hw hd
  exact ⟨by decide, by simp [SearchArtist, getReqeust_ok hw hd]⟩

/-- Witness for C6 with a concrete two-artist fixture. -/
theorem beatles_scenario_witness :
    ((fun _ => TransportOutcome.body "<xml>" : World)
        (mkRequest NewWS2Client (searchParams "Beatles" (-1) (-1)) "/artist")
      = TransportOutcome.body "<xml>") ∧
    ((fun _ => Except.ok (artistResult.mk (ArtistResponse.mk [Artist.mk "John", Artist.mk "Paul"]))
        : String → Except GoError artistResult) "<xml>"
      = Except.ok (artistResult.mk (ArtistResponse.mk [Artist.mk "John", Artist.mk "Paul"]))) ∧
    (mkRequest NewWS2Client (searchParams "Beatles" (-1) (-1)) "/artist").url
      = "https://musicbrainz.org/ws/2/artist?limit=&offset=&query=Beatles" ∧
    (SearchArtist
        (fun _ => Except.ok (artistResult.mk (ArtistResponse.mk [Artist.mk "John", Artist.mk "Paul"])))
        (fun _ => TransportOutcome.body "<xml>") NewWS2Client "Beatles" (-1) (-1)).1
      = SearchReturn.returns (some (ArtistResponse.mk [Artist.mk "John", Artist.mk "Paul"])) none :=
  ⟨rfl, rfl,
   beatles_scenario (fun _ => TransportOutcome.body "<xml>")
     (fun _ => Except.ok (artistResult.mk (ArtistResponse.mk [Artist.mk "John", Artist.mk "Paul"])))
     "<xml>" (Artist.mk "John") (Artist.mk "Paul") rfl rfl⟩

/-- Claim C7: each search operation addresses the fixed relative endpoint
of its entity kind appended to the client's root URL, and consults the
network only at that request. -/
theorem search_endpoints_fixed :
    ∀ (c : WS2Client) (t : String) (l o : Int),
      (mkRequest c (searchParams t l o) "/artist").url
        = c.WS2RootURL ++ "/artist" ++ "?" ++ Values.encode (searchParams t l o) ∧
      (mkRequest c (searchParams t l o) "/release").url
        = c.WS2RootURL ++ "/release" ++ "?" ++ Values.encode (searchParams t l o) ∧
      (mkRequest c (searchParams t l o) "/release-group").url
        = c.WS2RootURL ++ "/release-group" ++ "?" ++ Values.encode (searchParams t l o) ∧
      (mkRequest c (searchParams t l o) "/tag").url
        = c.WS2RootURL ++ "/tag" ++ "?" ++ Values.encode (searchParams t l o) ∧
      (∀ (world world' : World) (d : String → Except GoError artistResult),
        world (mkRequest c (searchParams t l o) "/artist")
          = world' (mkRequest c (searchParams t l o) "/artist") →
        SearchArtist d world c t l o = SearchArtist d world' c t l o) ∧
      (∀ (world world' : World) (d : String → Except GoError releaseResult),
        world (mkRequest c (searchParams t l o) "/release")
          = world' (mkRequest c (searchParams t l o) "/release") →
        SearchRelease d world c t l o = SearchRelease d world' c t l o) ∧
      (∀ (world world' : World) (d : String → Except GoError releaseGroupResult),
        world (mkRequest c (searchParams t l o) "/release-group")
          = world' (mkRequest c (searchParams t l o) "/release-group") →
        SearchReleaseGroup d world c t l o = SearchReleaseGroup d world' c t l o) ∧
      (∀ (world world' : World) (d : String → Except GoError tagResult),
        world (mkRequest c (searchParams t l o) "/tag")
          = world' (mkRequest c (searchParams t l o) "/tag") →
        SearchTag d world c t l o = SearchTag d world' c t l o) := by
  intro c t l o
  refine ⟨rfl, rfl, rfl, rfl, ?_, ?_, ?_, ?_⟩
  · intro world world' d h
    unfold SearchArtist
    rw [getReqeust_congr h]
  · intro world world' d h
    unfold SearchRelease
    rw [getReqeust_congr h]
  · intro world world' d h
    unfold SearchReleaseGroup
    rw [getReqeust_congr h]
  · intro world world' d h
    unfold SearchTag
    rw [getReqeust_congr h]

/-- Witness for C7 at concrete inputs and two (equal-at-the-request)
worlds. -/
theorem search_endpoints_fixed_witness :
    (mkRequest NewWS2Client (searchParams "x" 1 2) "/artist").url
      = NewWS2Client.WS2RootURL ++ "/artist" ++ "?" ++ Values.encode (searchParams "x" 1 2) ∧
    SearchArtist (fun _ => Except.error "e") (fun _ => TransportOutcome.transportError)
        NewWS2Client "x" 1 2
      = SearchArtist (fun _ => Except.error "e") (fun _ => TransportOutcome.transportError)
        NewWS2Client "x" 1 2 :=
  ⟨(search_endpoints_fixed NewWS2Client "x" 1 2).1,
   (search_endpoints_fixed NewWS2Client "x" 1 2).2.2.2.2.1
     (fun _ => TransportOutcome.transportError) (fun _ => TransportOutcome.transportError)
     (fun _ => Except.error "e") rfl⟩

/-- Claim C8: no search operation mutates the client's configuration:
the client state coming out of each call is the one that went in, so
`WS2RootURL` and `userAgentHeader` are unchanged. -/
theorem search_preserves_client :
    ∀ (world : World) (c : WS2Client) (t : String) (l o : Int),
      (∀ d : String → Except GoError artistResult, (SearchArtist d world c t l o).2 = c) ∧
      (∀ d : String → Except GoError releaseResult, (SearchRelease d world c t l o).2 = c) ∧
      (∀ d : String → Except GoError releaseGroupResult,
        (SearchReleaseGroup d world c t l o).2 = c) ∧
      (∀ d : String → Except GoError tagResult, (SearchTag d world c t l o).2 = c) := by
  intro world c t l o
  refine ⟨?_, ?_, ?_, ?_⟩
  · intro d
    cases hg : getReqeust d world c (searchParams t l o) "/artist" <;> simp [SearchArtist, hg]
  · intro d
    cases hg : getReqeust d world c (searchParams t l o) "/release" <;> simp [SearchRelease, hg]
  · intro d
    cases hg : getReqeust d world c (searchParams t l o) "/release-group" <;>
      simp [SearchReleaseGroup, hg]
  · intro d
    cases hg : getReqeust d world c (searchParams t l o) "/tag" <;> simp [SearchTag, hg]
